import Mathlib

/-!
Verification of the Kaito script-runtime host against its specification.

The definitions below are a shallow embedding of the Rust sources:
  * `src/modules/lua/state.rs` — `LuaState::create_state`, `LuaState::think`,
    `LuaState::run_sandboxed` and the `SandboxState` userdata methods;
  * `src/modules/lua/lib/async.rs` — `create_future` and `async.delay`.

Interpreter-side Lua calls (the think hooks, `sandbox.async_callback`, the
future resolve/reject handles) are opaque to the Rust code except for whether
they raise an interpreter error; they are modelled by an oracle environment
`LuaEnv` that decides, per call, whether the call raises and with what message.
The trace of interpreter calls the drain loop makes is recorded as a list of
`LuaCall` values so that theorems can speak about which resolution path ran.
-/

namespace Kaito

/-- Termination reasons: the closed enumeration from state.rs
(`SandboxTerminationReason`), currently only the execution quota. -/
inductive SandboxTerminationReason
  | ExecutionQuota
deriving DecidableEq, Repr

/-- Messages delivered to the host over the per-run channel (state.rs
`SandboxMsg`). -/
inductive SandboxMsg
  | Out (text : String)
  | Error (text : String)
  | Terminated (reason : SandboxTerminationReason)
deriving DecidableEq, Repr

/-- Lua values passed to resolution calls; only strings and booleans cross the
boundary in the drained-callback protocol. -/
inductive LVal
  | str (s : String)
  | boolean (b : Bool)
deriving DecidableEq, Repr

/-- A `LuaAsyncCallback` descriptor popped off the bridge (state.rs line 29):
the future registry key, the optional captured sandbox state (modelled by an
id), and the completion function. The completion function is pure with respect
to the interpreter, so it is embedded by its result: a value list on success or
a message on failure. -/
structure AsyncCallbackDescriptor where
  futRegKey : Nat
  sandboxState : Option Nat
  cbResult : Except String (List LVal)

/-- The interpreter calls `LuaState::think` makes, recorded as trace events:
the entry point's think hook, a `sandbox.async_callback` invocation, or a
direct call of the selected `__handle_resolve` / `__handle_reject` function. -/
inductive LuaCall
  | thinkHook (sandboxed : Bool)
  | sandboxAsyncCallback (ctx : Nat) (fut : Nat) (flag : Bool) (vals : List LVal)
  | directResolve (useResolveHook : Bool) (fut : Nat) (flag : Bool) (vals : List LVal)
deriving DecidableEq, Repr

/-- Oracle for the interpreter side: whether the think hook raises, and whether
a given resolution call raises an interpreter error (and with what message). -/
structure LuaEnv where
  thinkHookErr : Option String
  asyncCallbackErr : Nat → List LVal → Option String
  resolveHookErr : Bool → Nat → List LVal → Option String

/-- The host-visible state of one `LuaState`: its `sandbox` flag, the queued
bridge descriptors (the crossbeam channel drained by `try_recv`), and the
interpreter registry keys currently held as future keep-alives. -/
structure LuaState where
  sandbox : Bool
  queue : List AsyncCallbackDescriptor
  registry : List Nat

/-- state.rs lines 156-164: run the completion function; on `Ok` the success
flag is true with its values, on `Err` the flag is false and the single value
is the error message as a string. -/
def completionResult (cb : Except String (List LVal)) : Bool × List LVal :=
  match cb with
  | Except.ok vals => (true, vals)
  | Except.error err => (false, [LVal.str err])

/-- state.rs lines 172-202: the interpreter call(s) made to resolve one popped
descriptor. In sandbox mode with a `Some` context, `sandbox.async_callback` is
called with the flag argument written literally `true` (line 183); in sandbox
mode with `None`, no resolution call is made at all; in non-sandbox mode the
handle selected by the success flag is called directly, again with the literal
`true` flag (line 195). -/
def resolutionCalls (sandbox : Bool) (d : AsyncCallbackDescriptor)
    (succ : Bool) (value : List LVal) : List LuaCall :=
  if sandbox then
    match d.sandboxState with
    | some c => [LuaCall.sandboxAsyncCallback c d.futRegKey true value]
    | none => []
  else
    [LuaCall.directResolve succ d.futRegKey true value]

/-- Whether the resolution call for a popped descriptor raises an interpreter
error, per the oracle; mirrors the `?` on the `call` at state.rs lines 190 and
201 (no call is made, hence no error, in the sandbox/`None` case). -/
def resolutionError (env : LuaEnv) (sandbox : Bool) (d : AsyncCallbackDescriptor)
    (succ : Bool) (value : List LVal) : Option String :=
  if sandbox then
    match d.sandboxState with
    | some c => env.asyncCallbackErr c value
    | none => none
  else
    env.resolveHookErr succ d.futRegKey value

/-- One iteration of the drain loop body in `LuaState::think` (state.rs lines
155-206) for a popped descriptor: run the completion function, look the future
up by its registry key (an interpreter error if the key is not registered),
make the resolution call, and — only if no interpreter error was raised —
remove the keep-alive registry value (line 205). An interpreter error
propagates via `?`, skipping the removal. -/
def drainStep (env : LuaEnv) (sandbox : Bool) (registry : List Nat)
    (d : AsyncCallbackDescriptor) : List LuaCall × Except String (List Nat) :=
  let p := completionResult d.cbResult
  if d.futRegKey ∈ registry then
    let calls := resolutionCalls sandbox d p.1 p.2
    match resolutionError env sandbox d p.1 p.2 with
    | some e => (calls, Except.error e)
    | none => (calls, Except.ok (registry.erase d.futRegKey))
  else
    ([], Except.error "registry lookup failed")

/-- The drain loop of `LuaState::think` (state.rs lines 152-209): pop
descriptors FIFO until the queue is empty or an interpreter error propagates.
Returns the trace of resolution calls, the descriptors still queued, the
registry after the processed removals, and the error (if one was raised). -/
def drainLoop (env : LuaEnv) (sandbox : Bool) :
    List AsyncCallbackDescriptor → List Nat →
    List LuaCall × List AsyncCallbackDescriptor × List Nat × Option String
  | [], registry => ([], [], registry, none)
  | d :: rest, registry =>
    match drainStep env sandbox registry d with
    | (calls, Except.error e) => (calls, rest, registry, some e)
    | (calls, Except.ok registry2) =>
      let r := drainLoop env sandbox rest registry2
      (calls ++ r.1, r.2.1, r.2.2.1, r.2.2.2)

/-- `LuaState::think` (state.rs lines 141-212): invoke the active entry
point's think hook (the `sandbox` table's hook when sandboxed, the `bot`
table's otherwise), then drain the bridge. Returns the trace of interpreter
calls, the final state, and the interpreter error surfaced to the caller, if
any. -/
def think (env : LuaEnv) (st : LuaState) : List LuaCall × LuaState × Option String :=
  match env.thinkHookErr with
  | some e => ([LuaCall.thinkHook st.sandbox], st, some e)
  | none =>
    let r := drainLoop env st.sandbox st.queue st.registry
    (LuaCall.thinkHook st.sandbox :: r.1,
      { st with queue := r.2.1, registry := r.2.2.1 }, r.2.2.2)

/-! Concrete inputs used by counterexamples and witnesses. -/

/-- A trusted-path descriptor: key 7, no sandbox context, successful completion
with no values. -/
def d1 : AsyncCallbackDescriptor :=
  { futRegKey := 7, sandboxState := none, cbResult := Except.ok [] }

/-- A descriptor with no captured sandbox context, key 5. -/
def dNone : AsyncCallbackDescriptor :=
  { futRegKey := 5, sandboxState := none, cbResult := Except.ok [] }

/-- A descriptor whose completion function reports failure, with a captured
sandbox context id 0 and key 9. -/
def dFail : AsyncCallbackDescriptor :=
  { futRegKey := 9, sandboxState := some 0, cbResult := Except.error "boom" }

/-- An interpreter oracle in which no Lua call raises. -/
def envQuiet : LuaEnv :=
  { thinkHookErr := none
    asyncCallbackErr := fun _ _ => none
    resolveHookErr := fun _ _ _ => none }

/-- An interpreter oracle in which every direct resolve/reject call raises. -/
def envC1 : LuaEnv :=
  { envQuiet with resolveHookErr := fun _ _ _ => some "resolve failed" }

/-- A trusted runtime state holding one queued descriptor and its keep-alive. -/
def stW : LuaState := { sandbox := false, queue := [d1], registry := [7] }

/-! The async library (`src/modules/lua/lib/async.rs`). -/

/-- Classification of an f64 duration argument: a finite magnitude (as an
exact rational absolute value), an infinity, or a NaN. Together with the sign
bit in `F64` this captures exactly what `f64::is_sign_negative` and
`f64::is_finite` inspect; no floating-point arithmetic is needed by the code
under verification. -/
inductive FKind
  | finite (mag : ℚ)
  | infinite
  | nan
deriving DecidableEq

/-- An f64 duration argument: its sign bit and its classification. `-0.0` is
`⟨true, finite 0⟩`. -/
structure F64 where
  negSign : Bool
  kind : FKind
deriving DecidableEq

/-- `f64::is_sign_negative`: exactly the sign bit (true for `-0.0`). -/
def F64.isSignNegative (d : F64) : Bool := d.negSign

/-- `f64::is_finite`. -/
def F64.isFinite (d : F64) : Bool :=
  match d.kind with
  | FKind.finite _ => true
  | _ => false

/-- Value-level negativity (the represented number is `< 0`): used to state
the specification's "negative duration", which is about the value, so `-0.0`
is not negative. NaN compares unordered, hence not negative. -/
def F64.isNegative (d : F64) : Bool :=
  match d.kind with
  | FKind.finite m => d.negSign && decide (0 < m.num)
  | FKind.infinite => d.negSign
  | FKind.nan => false

/-- The interpreter/bridge state the async library touches: the next fresh
registry key, the keep-alive registry, the ambient `__SANDBOX_STATE` slot
(an id, captured by value when work is scheduled), and the list of spawned
native tasks, each recorded as (future registry key, captured sandbox state).
-/
structure AsyncState where
  nextRegKey : Nat
  registry : List Nat
  sandboxSlot : Option Nat
  spawned : List (Nat × Option Nat)

/-- `create_future` (async.rs lines 11-19): call the `async.__RustFuture`
constructor and store a keep-alive registry reference to the new future,
returning the registry key (which also identifies the future object). -/
def create_future (st : AsyncState) : AsyncState × Nat :=
  ({ st with
      nextRegKey := st.nextRegKey + 1
      registry := st.registry ++ [st.nextRegKey] },
    st.nextRegKey)

/-- The number of whole seconds at which a `Duration` overflows:
`u64::MAX + 1 = 2^64`, written out so kernel evaluation stays cheap. -/
def durationSecondsBound : ℚ := 18446744073709551616

/-- What `async.delay` can do synchronously: raise an interpreter error,
panic in the host (a `Duration` conversion overflow is not an interpreter
error), or return the future object (identified by its registry key). -/
inductive DelayResult
  | luaError (msg : String)
  | hostPanic
  | future (regKey : Nat)
deriving DecidableEq, Repr

/-- `Duration::from_secs_f64` (called at async.rs line 41) panics when the
seconds value is non-finite or overflows `Duration`, i.e. when
`secs * 1e9 ≥ (u64::MAX + 1) * 1e9`; the threshold is idealized exactly on
the rational magnitude. `async.delay` reaches it only after the
negative-sign/non-finite validation has passed. -/
def durationOverflows (d : F64) : Bool :=
  match d.kind with
  | FKind.finite mag => decide (durationSecondsBound ≤ mag)
  | _ => true

/-- `async.delay` (async.rs lines 34-59): create the future (and its
keep-alive) first, then validate the duration — raising "Invalid duration"
when the sign bit is negative or the value is non-finite — then convert it
with `Duration::from_secs_f64`, which panics on overflow, and only then
capture the ambient sandbox state and spawn the native timer task. -/
def async_delay (st : AsyncState) (d : F64) : AsyncState × DelayResult :=
  let r := create_future st
  let st1 := r.1
  let key := r.2
  if d.isSignNegative || !d.isFinite then
    (st1, DelayResult.luaError "Invalid duration")
  else if durationOverflows d then
    (st1, DelayResult.hostPanic)
  else
    ({ st1 with spawned := st1.spawned ++ [(key, st1.sandboxSlot)] },
      DelayResult.future key)

/-! The runtime constructor and the sandbox state
(`src/modules/lua/state.rs`). -/

/-- The host-side fields of a `LuaState` fixed at construction: the sandbox
flag, the interpreter memory limit, and the shared HTTP rate limiter (its
per-second quota and its identity — an `Arc`, modelled by an id so that
sharing is expressible). -/
structure LuaRuntime where
  sandbox : Bool
  memoryLimit : Nat
  rateLimiterQuotaPerSecond : Nat
  rateLimiterId : Nat
deriving DecidableEq, Repr

/-- `LuaState::create_state` (state.rs lines 58-101): sets the interpreter
memory limit to 256 MiB and creates the single rate limiter of the runtime
with a quota of 2 per second. `limiterId` stands for the fresh `Arc`
allocated here. -/
def create_state (sandbox : Bool) (limiterId : Nat) : LuaRuntime :=
  { sandbox := sandbox
    memoryLimit := 256 * 1024 * 1024
    rateLimiterQuotaPerSecond := 2
    rateLimiterId := limiterId }

/-- `SandboxStateInner` (state.rs lines 228-240): the per-run counters and the
handle (id) of the runtime's shared rate limiter. -/
structure SandboxStateInner where
  instructions_run : Nat
  lines_left : Nat
  characters_left : Nat
  http_calls_left : Nat
  rateLimiterId : Nat
deriving DecidableEq, Repr

/-- `LuaState::run_sandboxed` (state.rs lines 112-139): creates a fresh
sandbox execution context with `lines_left = 10`, `characters_left = 2000`,
`http_calls_left = 2`, `instructions_run = 0`, and a clone of the runtime's
single rate-limiter `Arc`. -/
def run_sandboxed (rt : LuaRuntime) : SandboxStateInner :=
  { instructions_run := 0
    lines_left := 10
    characters_left := 2000
    http_calls_left := 2
    rateLimiterId := rt.rateLimiterId }

/-- The state a `SandboxState` userdata method can touch: the context itself
and the interpreter's named `__SANDBOX_STATE` registry slot (holding a clone
of a context, or nothing). -/
structure MethodState where
  ctx : SandboxStateInner
  sandboxSlot : Option SandboxStateInner
deriving DecidableEq, Repr

/-- The `print` method (state.rs lines 249-252): send `Out(value)` on the
per-run channel, ignoring a send failure; nothing else is touched. -/
def sandboxPrint (st : MethodState) (value : String) :
    MethodState × List SandboxMsg × Except String Unit :=
  (st, [SandboxMsg.Out value], Except.ok ())

/-- The `error` method (state.rs lines 254-257): send `Error(value)`, ignoring
a send failure. -/
def sandboxErrorMethod (st : MethodState) (value : String) :
    MethodState × List SandboxMsg × Except String Unit :=
  (st, [SandboxMsg.Error value], Except.ok ())

/-- The `set_instructions_run` method (state.rs lines 259-262). -/
def set_instructions_run (st : MethodState) (value : Nat) : MethodState :=
  { st with ctx := { st.ctx with instructions_run := value } }

/-- The `get_instructions_run` method (state.rs lines 264-266). -/
def get_instructions_run (st : MethodState) : Nat :=
  st.ctx.instructions_run

/-- The `set_state` method (state.rs lines 268-271): store a clone of this
context into the `__SANDBOX_STATE` registry slot. -/
def set_state (st : MethodState) : MethodState :=
  { st with sandboxSlot := some st.ctx }

/-- The `terminate` method (state.rs lines 280-294): map `"exec"` to
`ExecutionQuota` and send one `Terminated` message; any other reason string
raises a runtime error naming the value before anything is sent. -/
def terminate (st : MethodState) (value : String) :
    MethodState × List SandboxMsg × Except String Unit :=
  if value = "exec" then
    (st, [SandboxMsg.Terminated SandboxTerminationReason.ExecutionQuota],
      Except.ok ())
  else
    (st, [],
      Except.error ("unknown termination reason: \"" ++ value ++ "\""))

/-- Modelled from the spec: the output-quota wrapper installed by the sandbox
bootstrap script (`lua/sandbox.lua`, which is not under `src/`; only the
native `print` method it forwards to is). Per §4.4 and the §8 scenario, an
output-producing call first checks `lines_left` and `characters_left`,
surfacing a quota error as an `Error` message when exhausted (before any `Out`
is sent), and otherwise decrements both counters and forwards the text to the
native print method. -/
def quotaPrint (st : MethodState) (value : String) :
    MethodState × List SandboxMsg × Except String Unit :=
  if st.ctx.lines_left = 0 || decide (st.ctx.characters_left < value.length) then
    (st, [SandboxMsg.Error "output quota exceeded"],
      Except.error "output quota exceeded")
  else
    sandboxPrint
      { st with ctx := { st.ctx with
          lines_left := st.ctx.lines_left - 1
          characters_left := st.ctx.characters_left - value.length } }
      value

/-- Modelled from the spec: the same quota wrapper around the native `error`
method (spec §4.4: both output-producing capability calls decrement the
counters). -/
def quotaError (st : MethodState) (value : String) :
    MethodState × List SandboxMsg × Except String Unit :=
  if st.ctx.lines_left = 0 || decide (st.ctx.characters_left < value.length) then
    (st, [SandboxMsg.Error "output quota exceeded"],
      Except.error "output quota exceeded")
  else
    sandboxErrorMethod
      { st with ctx := { st.ctx with
          lines_left := st.ctx.lines_left - 1
          characters_left := st.ctx.characters_left - value.length } }
      value

/-- Run a sandboxed script that performs the given sequence of quota-governed
prints, collecting the messages the host receives; an uncaught quota error
ends the run. -/
def runOutputs : MethodState → List String → List SandboxMsg
  | _, [] => []
  | st, v :: vs =>
    match quotaPrint st v with
    | (st1, msgs, Except.ok _) => msgs ++ runOutputs st1 vs
    | (_, msgs, Except.error _) => msgs

/-! Further concrete inputs for counterexamples and witnesses. -/

/-- A concrete async-library state: next fresh key 3, empty registry, no
ambient sandbox, nothing spawned. -/
def stA : AsyncState :=
  { nextRegKey := 3, registry := [], sandboxSlot := none, spawned := [] }

/-- The f64 value `-0.0`: finite, equal to zero, with a negative sign bit. -/
def negZero : F64 := { negSign := true, kind := FKind.finite 0 }

/-- The f64 value `-∞`. -/
def negInf : F64 := { negSign := true, kind := FKind.infinite }

/-- The method-level state of a fresh sandboxed run on a sandboxed runtime:
the fresh context, also installed in the `__SANDBOX_STATE` slot (state.rs
lines 133-134). -/
def freshRun : MethodState :=
  { ctx := run_sandboxed (create_state true 0)
    sandboxSlot := some (run_sandboxed (create_state true 0)) }

/-! Helper lemmas about the drain loop. -/

/-- The queue left after a drain is a suffix of the queue it started from. -/
theorem drainLoop_queue_suffix (env : LuaEnv) (sandbox : Bool) :
    ∀ (q : List AsyncCallbackDescriptor) (registry : List Nat),
      List.IsSuffix (drainLoop env sandbox q registry).2.1 q := by
  intro q
  induction q with
  | nil =>
    intro registry
    simp only [drainLoop]
    exact List.nil_suffix
  | cons d rest ih =>
    intro registry
    rcases hds : drainStep env sandbox registry d with ⟨calls, r⟩
    cases r with
    | error e =>
      simp only [drainLoop, hds]
      exact List.suffix_cons d rest
    | ok registry2 =>
      simp only [drainLoop, hds]
      exact (ih registry2).trans (List.suffix_cons d rest)

/-- If the drain finished without an interpreter error, the queue was drained
until empty. -/
theorem drainLoop_none_empty (env : LuaEnv) (sandbox : Bool) :
    ∀ (q : List AsyncCallbackDescriptor) (registry : List Nat),
      (drainLoop env sandbox q registry).2.2.2 = none →
      (drainLoop env sandbox q registry).2.1 = [] := by
  intro q
  induction q with
  | nil =>
    intro registry _
    simp [drainLoop]
  | cons d rest ih =>
    intro registry h
    rcases hds : drainStep env sandbox registry d with ⟨calls, r⟩
    cases r with
    | error e =>
      simp only [drainLoop, hds] at h
      exact absurd h (by simp)
    | ok registry2 =>
      simp only [drainLoop, hds] at h ⊢
      exact ih registry2 h

/-! Claim theorems. -/

/-- C1, counterexample: the claim that the keep-alive registry reference is
released unconditionally — even when the resolution call raises an interpreter
error — is false. On a trusted runtime with one queued descriptor (key 7)
whose direct resolution raises, the tick pops the descriptor (the queue ends
empty) and surfaces the error, yet key 7 is still registered afterwards: the
early `?` return skips `remove_registry_value`. -/
theorem c1_counterexample :
    (think envC1 stW).2.2 = some "resolve failed"
    ∧ (think envC1 stW).2.1.queue = []
    ∧ 7 ∈ (think envC1 stW).2.1.registry :=
  ⟨rfl, rfl, by decide⟩

/-- C1 (amended): for every popped descriptor, the keep-alive registry
reference is released exactly when processing the descriptor raises no
interpreter error: on a successful drain step the key is no longer registered,
while if the resolution call raises, the drain loop stops with the registry
unchanged (the key still held). -/
theorem c1_amended (env : LuaEnv) (sandbox : Bool) (registry : List Nat)
    (d : AsyncCallbackDescriptor) (hnd : registry.Nodup) :
    (∀ registry2, (drainStep env sandbox registry d).2 = Except.ok registry2 →
        d.futRegKey ∉ registry2)
    ∧ (∀ e rest, (drainStep env sandbox registry d).2 = Except.error e →
        (drainLoop env sandbox (d :: rest) registry).2.2.1 = registry) := by
  constructor
  · intro registry2 h
    have herase : registry2 = registry.erase d.futRegKey := by
      by_cases hm : d.futRegKey ∈ registry
      · cases he : resolutionError env sandbox d (completionResult d.cbResult).1
            (completionResult d.cbResult).2 with
        | some e => simp [drainStep, hm, he] at h
        | none =>
          simp [drainStep, hm, he] at h
          exact h.symm
      · simp [drainStep, hm] at h
    subst herase
    intro hmem2
    rcases (List.Nodup.mem_erase_iff hnd).1 hmem2 with ⟨hne, _⟩
    exact hne rfl
  · intro e rest h
    rcases hds : drainStep env sandbox registry d with ⟨calls, r⟩
    rw [hds] at h
    simp only at h
    subst h
    simp [drainLoop, hds]

/-- C1 witness for the amended theorem, at the counterexample input: when the
direct resolution of descriptor `d1` raises, the drain loop leaves the
registry still holding key 7. -/
theorem c1_amended_witness :
    (drainLoop envC1 false [d1] [7]).2.2.1 = [7] :=
  (c1_amended envC1 false [7] d1 (by decide)).2 "resolve failed" [] rfl

/-- C2, counterexample: the claim that every drained descriptor takes exactly
one of the two resolution paths, determined solely by the optional sandbox
context, is false. On a sandboxed runtime, a descriptor whose captured context
is `None` is drained — its keep-alive is even released — but no resolution
call is made at all (neither `sandbox.async_callback` nor a direct resolve):
the code branches on the runtime's `sandbox` flag first, and the sandboxed
branch does nothing when the context is `None`. -/
theorem c2_counterexample :
    dNone.sandboxState = none
    ∧ (drainStep envQuiet true [5] dNone).1 = []
    ∧ (drainStep envQuiet true [5] dNone).2 = Except.ok ([] : List Nat) :=
  ⟨rfl, rfl, rfl⟩

/-- C2 (amended): the resolution path of a drained descriptor is determined by
the runtime's sandbox flag together with the optional context: on a sandboxed
runtime with a `Some` context, exactly one `sandbox.async_callback` call is
made (with the flag argument the literal `true`); on a sandboxed runtime with
`None`, no resolution call is made; on a trusted runtime the future is
resolved directly through the handle selected by the success flag, whatever
the context is. -/
theorem c2_amended (env : LuaEnv) (sandbox : Bool) (registry : List Nat)
    (d : AsyncCallbackDescriptor) (hmem : d.futRegKey ∈ registry) :
    (sandbox = true → ∀ c, d.sandboxState = some c →
        (drainStep env sandbox registry d).1
          = [LuaCall.sandboxAsyncCallback c d.futRegKey true
              (completionResult d.cbResult).2])
    ∧ (sandbox = true → d.sandboxState = none →
        (drainStep env sandbox registry d).1 = [])
    ∧ (sandbox = false →
        (drainStep env sandbox registry d).1
          = [LuaCall.directResolve (completionResult d.cbResult).1 d.futRegKey
              true (completionResult d.cbResult).2]) := by
  refine ⟨?_, ?_, ?_⟩
  · rintro rfl c hc
    cases he : resolutionError env true d (completionResult d.cbResult).1
        (completionResult d.cbResult).2 <;>
      simp [drainStep, resolutionCalls, hmem, hc, he]
  · rintro rfl hc
    simp [drainStep, resolutionCalls, resolutionError, hmem, hc]
  · rintro rfl
    cases he : resolutionError env false d (completionResult d.cbResult).1
        (completionResult d.cbResult).2 <;>
      simp [drainStep, resolutionCalls, hmem, he]

/-- C2 witness for the amended theorem: on a trusted runtime, descriptor `d1`
is resolved directly through the success handle. -/
theorem c2_amended_witness :
    (drainStep envQuiet false [7] d1).1
      = [LuaCall.directResolve true 7 true []] :=
  (c2_amended envQuiet false [7] d1 (by decide)).2.2 rfl

/-- C3: evaluation at the failing input. For a drained descriptor on a
sandboxed runtime whose completion function reports failure (`Err "boom"`),
the completion is converted to a failure flag and message, but the only
interpreter call made is `sandbox.async_callback` with the success-flag
argument hardcoded `true` (state.rs line 183) — the reject handle selected at
line 169 is never invoked on this path. On a trusted runtime the same
descriptor does go to the reject handle, which shows the sandboxed branch
drops the computed success flag — a slip, contradicting the documented
conversion of completion failures into rejections. -/
theorem c3_flag_bug :
    completionResult dFail.cbResult = (false, [LVal.str "boom"])
    ∧ (drainStep envQuiet true [9] dFail).1
        = [LuaCall.sandboxAsyncCallback 0 9 true [LVal.str "boom"]]
    ∧ (drainStep envQuiet false [9] dFail).1
        = [LuaCall.directResolve false 9 true [LVal.str "boom"]] :=
  ⟨rfl, rfl, rfl⟩

/-- C4, counterexample: the claim that `async.delay(d)` succeeds for every
finite, non-negative `d` including `-0.0` is false. `-0.0` is finite and not
negative as a value, yet the code raises "Invalid duration" for it, because
validation uses `is_sign_negative` (the sign bit) rather than a value
comparison. -/
theorem c4_counterexample :
    negZero.isFinite = true
    ∧ negZero.isNegative = false
    ∧ (async_delay stA negZero).2 = DelayResult.luaError "Invalid duration" :=
  ⟨rfl, by decide, rfl⟩

/-- C4 (amended): `async.delay(d)` fails synchronously with the validation
error exactly when `d`'s sign bit is negative or `d` is non-finite (so `-0.0`
fails even though it equals 0); on every such failure no native task is
spawned. For every finite `d` with a non-negative sign bit whose value is
below `Duration`'s range (under 2^64 seconds) the call succeeds, returning
the fresh future and spawning exactly one native timer task; at or beyond
that bound `Duration::from_secs_f64` panics in the host, again spawning
nothing. -/
theorem c4_amended (st : AsyncState) (d : F64) :
    ((async_delay st d).2 = DelayResult.luaError "Invalid duration"
        ↔ (d.negSign = true ∨ d.isFinite = false))
    ∧ ((d.negSign = true ∨ d.isFinite = false) →
        (async_delay st d).1.spawned = st.spawned)
    ∧ (d.negSign = false → d.isFinite = true → durationOverflows d = false →
        (async_delay st d).2 = DelayResult.future st.nextRegKey
        ∧ (async_delay st d).1.spawned
            = st.spawned ++ [(st.nextRegKey, st.sandboxSlot)])
    ∧ (d.negSign = false → d.isFinite = true → durationOverflows d = true →
        (async_delay st d).2 = DelayResult.hostPanic
        ∧ (async_delay st d).1.spawned = st.spawned) := by
  refine ⟨?_, ?_, ?_, ?_⟩
  · cases hn : d.negSign <;> cases hf : d.isFinite <;>
      cases ho : durationOverflows d <;>
      simp [async_delay, create_future, F64.isSignNegative, hn, hf, ho]
  · intro h
    have hcond : (d.isSignNegative || !d.isFinite) = true := by
      rcases h with h | h
      · simp [F64.isSignNegative, h]
      · simp [h]
    simp [async_delay, create_future, hcond]
  · intro hn hf ho
    simp [async_delay, create_future, F64.isSignNegative, hn, hf, ho]
  · intro hn hf ho
    simp [async_delay, create_future, F64.isSignNegative, hn, hf, ho]

/-- C4 witness for the amended theorem: `delay(1.0)` succeeds and spawns a
task, `delay(-0.0)` spawns nothing, and a finite non-negative duration of
2^64 seconds panics the host. -/
theorem c4_amended_witness :
    (async_delay stA { negSign := false, kind := FKind.finite 1 }).2
        = DelayResult.future 3
    ∧ (async_delay stA negZero).1.spawned = []
    ∧ (async_delay stA
          { negSign := false, kind := FKind.finite durationSecondsBound }).2
        = DelayResult.hostPanic :=
  ⟨((c4_amended stA { negSign := false, kind := FKind.finite 1 }).2.2.1
      rfl rfl (by decide)).1,
    (c4_amended stA negZero).2.1 (Or.inl rfl),
    ((c4_amended stA
        { negSign := false, kind := FKind.finite durationSecondsBound }).2.2.2
      rfl rfl (by decide)).1⟩

/-- C5: every tick first makes the think-hook call of the entry point selected
by the sandbox flag (it is the head of the interpreter-call trace); when no
interpreter error is raised the queue is drained until empty; the descriptors
still queued afterwards are always a suffix of the original queue (what an
aborted drain leaves is retried by later ticks); and an error raised by the
hook itself is returned to the caller with nothing drained. -/
theorem c5_tick (env : LuaEnv) (st : LuaState) :
    (think env st).1.head? = some (LuaCall.thinkHook st.sandbox)
    ∧ ((think env st).2.2 = none → (think env st).2.1.queue = [])
    ∧ List.IsSuffix (think env st).2.1.queue st.queue
    ∧ (∀ e, env.thinkHookErr = some e →
        think env st = ([LuaCall.thinkHook st.sandbox], st, some e)) := by
  refine ⟨?_, ?_, ?_, ?_⟩
  · cases h : env.thinkHookErr <;> simp [think, h]
  · intro hnone
    cases h : env.thinkHookErr with
    | some e => simp [think, h] at hnone
    | none =>
      simp only [think, h] at hnone ⊢
      exact drainLoop_none_empty env st.sandbox st.queue st.registry hnone
  · cases h : env.thinkHookErr with
    | some e =>
      simp only [think, h]
      exact List.suffix_refl _
    | none =>
      simp only [think, h]
      exact drainLoop_queue_suffix env st.sandbox st.queue st.registry
  · intro e he
    simp [think, he]

/-- C5 witness: on a trusted runtime with one queued descriptor and a quiet
interpreter, the tick's first call is the bot think hook and the queue drains
to empty. -/
theorem c5_tick_witness :
    (think envQuiet stW).1.head? = some (LuaCall.thinkHook false)
    ∧ (think envQuiet stW).2.1.queue = [] :=
  ⟨(c5_tick envQuiet stW).1, (c5_tick envQuiet stW).2.1 rfl⟩

/-- C6: output quota accounting for a fresh sandboxed run (whose context src
creates with `lines_left = 10`, `characters_left = 2000`). A quota-governed
print decrements both counters (as does the error capability), and the §8
scenario holds: ten `print("a")` calls produce ten `Out("a")` messages, and
the eleventh print produces only the quota `Error` message — no further `Out`
is sent. -/
theorem c6_output_quota :
    (quotaPrint freshRun "a").1.ctx.lines_left = 9
    ∧ (quotaPrint freshRun "a").1.ctx.characters_left = 1999
    ∧ (quotaError freshRun "a").1.ctx.lines_left = 9
    ∧ runOutputs freshRun (List.replicate 10 "a" ++ ["b"])
        = List.replicate 10 (SandboxMsg.Out "a")
            ++ [SandboxMsg.Error "output quota exceeded"] := by
  refine ⟨by decide, by decide, by decide, by decide⟩

/-- C7: `terminate(reason)` sends exactly one
`Terminated(ExecutionQuota)` message and succeeds when `reason = "exec"`; for
every other reason it raises a runtime error naming the unrecognized value and
sends nothing. -/
theorem c7_terminate (st : MethodState) (v : String) :
    (v = "exec" →
      terminate st v
        = (st, [SandboxMsg.Terminated SandboxTerminationReason.ExecutionQuota],
            Except.ok ()))
    ∧ (v ≠ "exec" →
      terminate st v
        = (st, [],
            Except.error ("unknown termination reason: \"" ++ v ++ "\""))) := by
  constructor
  · rintro rfl
    simp [terminate]
  · intro h
    simp [terminate, h]

/-- C7 witness: `terminate("exec")` on a fresh run sends the quota termination
message; `terminate("quota")` raises the descriptive error and sends nothing. -/
theorem c7_terminate_witness :
    terminate freshRun "exec"
      = (freshRun,
          [SandboxMsg.Terminated SandboxTerminationReason.ExecutionQuota],
          Except.ok ())
    ∧ terminate freshRun "quota"
      = (freshRun, [],
          Except.error ("unknown termination reason: \"" ++ "quota" ++ "\"")) :=
  ⟨(c7_terminate freshRun "exec").1 rfl,
    (c7_terminate freshRun "quota").2 (by decide)⟩

/-- C8: the resource ceilings match the specified defaults: `create_state`
fixes the interpreter memory limit at 256 MiB and creates the runtime's single
rate limiter with a quota of 2 per second, and every fresh sandboxed run
starts with `lines_left = 10`, `characters_left = 2000`,
`http_calls_left = 2`, and holds the same rate-limiter handle as its runtime —
so all runs under one runtime share that one instance. -/
theorem c8_resource_ceilings (sandbox : Bool) (limiterId : Nat)
    (rt : LuaRuntime) :
    (create_state sandbox limiterId).memoryLimit = 256 * 1024 * 1024
    ∧ (create_state sandbox limiterId).rateLimiterQuotaPerSecond = 2
    ∧ (run_sandboxed rt).lines_left = 10
    ∧ (run_sandboxed rt).characters_left = 2000
    ∧ (run_sandboxed rt).http_calls_left = 2
    ∧ (run_sandboxed rt).rateLimiterId = rt.rateLimiterId :=
  ⟨rfl, rfl, rfl, rfl, rfl, rfl⟩

/-- C9: a successful `terminate("exec")` only emits the `Terminated` message:
it returns with the whole method-visible state unchanged — the quota counters,
`instructions_run`, and the `__SANDBOX_STATE` slot keep their values — it
returns `Ok` rather than raising (so it does not itself stop interpreter
execution), and a subsequent capability call such as `print` behaves exactly
as it would have before the call. -/
theorem c9_terminate_frame (st : MethodState) (v : String) :
    terminate st "exec"
      = (st, [SandboxMsg.Terminated SandboxTerminationReason.ExecutionQuota],
          Except.ok ())
    ∧ sandboxPrint (terminate st "exec").1 v = sandboxPrint st v
    ∧ (terminate st "exec").1.ctx.lines_left = st.ctx.lines_left
    ∧ (terminate st "exec").1.ctx.characters_left = st.ctx.characters_left
    ∧ (terminate st "exec").1.ctx.http_calls_left = st.ctx.http_calls_left
    ∧ (terminate st "exec").1.ctx.instructions_run = st.ctx.instructions_run
    ∧ (terminate st "exec").1.sandboxSlot = st.sandboxSlot :=
  ⟨rfl, rfl, rfl, rfl, rfl, rfl, rfl⟩

/-- C10: `async.delay` creates the future and stores its registry keep-alive
before validating the duration, so for every invalid duration (negative sign
bit or non-finite) the call raises "Invalid duration" with the fresh
keep-alive already created and still registered — it is not released on this
error path. -/
theorem c10_keepalive_leak (st : AsyncState) (d : F64)
    (h : d.negSign = true ∨ d.isFinite = false) :
    (async_delay st d).2 = DelayResult.luaError "Invalid duration"
    ∧ (async_delay st d).1.registry = st.registry ++ [st.nextRegKey]
    ∧ st.nextRegKey ∈ (async_delay st d).1.registry := by
  have hcond : (d.isSignNegative || !d.isFinite) = true := by
    rcases h with h | h
    · simp [F64.isSignNegative, h]
    · simp [h]
  refine ⟨?_, ?_, ?_⟩ <;> simp [async_delay, create_future, hcond]

/-- C10 witness: `delay(-∞)` raises the validation error while key 3 — the
keep-alive created for the never-resolved future — remains registered. -/
theorem c10_keepalive_leak_witness :
    (async_delay stA negInf).2 = DelayResult.luaError "Invalid duration"
    ∧ 3 ∈ (async_delay stA negInf).1.registry :=
  ⟨(c10_keepalive_leak stA negInf (Or.inl rfl)).1,
    (c10_keepalive_leak stA negInf (Or.inl rfl)).2.2⟩

end Kaito
